import Mathlib

/-!
Verification of the event coalescing and replay subsystem of the session
layer (src/wsd/SenderQueue.hpp and src/kit/ChildSession.cpp): the outbound
deduplicating sender queue, the inactive-session state recorder, and the
replay protocol run on reactivation.

Machine integers are modelled as Int with explicit range checks where the
code checks them; code that can throw a library exception is modelled as
Except, where an error value means the exception escapes and the state
mutations that had not yet happened do not happen.
-/

set_option maxRecDepth 4000

/-- Callback type tags from the external LibreOfficeKit enum
(LibreOfficeKitEnums.h, outside this repository).  The code only ever
compares these symbolic constants for equality, so only their distinctness
matters; the numeric values follow the external header. -/
def LOK_CALLBACK_INVALIDATE_TILES : Nat := 0

def LOK_CALLBACK_INVALIDATE_VISIBLE_CURSOR : Nat := 1

def LOK_CALLBACK_TEXT_SELECTION : Nat := 2

def LOK_CALLBACK_TEXT_SELECTION_START : Nat := 3

def LOK_CALLBACK_TEXT_SELECTION_END : Nat := 4

def LOK_CALLBACK_CURSOR_VISIBLE : Nat := 5

def LOK_CALLBACK_GRAPHIC_SELECTION : Nat := 6

def LOK_CALLBACK_HYPERLINK_CLICKED : Nat := 7

def LOK_CALLBACK_STATE_CHANGED : Nat := 8

def LOK_CALLBACK_STATUS_INDICATOR_START : Nat := 9

def LOK_CALLBACK_STATUS_INDICATOR_SET_VALUE : Nat := 10

def LOK_CALLBACK_STATUS_INDICATOR_FINISH : Nat := 11

def LOK_CALLBACK_SEARCH_NOT_FOUND : Nat := 12

def LOK_CALLBACK_DOCUMENT_SIZE_CHANGED : Nat := 13

def LOK_CALLBACK_SET_PART : Nat := 14

def LOK_CALLBACK_SEARCH_RESULT_SELECTION : Nat := 15

def LOK_CALLBACK_UNO_COMMAND_RESULT : Nat := 16

def LOK_CALLBACK_CELL_CURSOR : Nat := 17

def LOK_CALLBACK_MOUSE_POINTER : Nat := 18

def LOK_CALLBACK_CELL_FORMULA : Nat := 19

def LOK_CALLBACK_ERROR : Nat := 22

def LOK_CALLBACK_CONTEXT_MENU : Nat := 23

def LOK_CALLBACK_INVALIDATE_VIEW_CURSOR : Nat := 24

def LOK_CALLBACK_TEXT_VIEW_SELECTION : Nat := 25

def LOK_CALLBACK_CELL_VIEW_CURSOR : Nat := 26

def LOK_CALLBACK_GRAPHIC_VIEW_SELECTION : Nat := 27

def LOK_CALLBACK_VIEW_CURSOR_VISIBLE : Nat := 28

def LOK_CALLBACK_VIEW_LOCK : Nat := 29

def LOK_CALLBACK_REDLINE_TABLE_SIZE_CHANGED : Nat := 30

def LOK_CALLBACK_REDLINE_TABLE_ENTRY_MODIFIED : Nat := 31

def LOK_CALLBACK_COMMENT : Nat := 32

def LOK_CALLBACK_INVALIDATE_HEADER : Nat := 33

def LOK_CALLBACK_CELL_ADDRESS : Nat := 34

def LOK_CALLBACK_RULER_UPDATE : Nat := 35

def LOK_CALLBACK_WINDOW : Nat := 36

def LOK_CALLBACK_VALIDITY_LIST_BUTTON : Nat := 37

def LOK_CALLBACK_CLIPBOARD_CHANGED : Nat := 38

def LOK_CALLBACK_SIGNATURE_STATUS : Nat := 39

/-- INT_MAX of the target platform (32-bit int). -/
def INT_MAX : Int := 2147483647

/-- INT_MIN of the target platform (32-bit int). -/
def INT_MIN : Int := -2147483648

/-- Modelled from the spec: the Message class (common/Message.hpp is not
part of the sources).  A Message is an immutable outbound unit exposing the
accessors the queue code reads: its command name (first token), its first
line, and its JSON body for JSON-bearing messages. -/
structure Message where
  firstToken : String
  firstLine : String
  jsonString : String
deriving DecidableEq, Repr

/-! ### Small string-parsing helpers (models of external library calls) -/

/-- First index at which the needle occurs as a prefix of a suffix of the
haystack, if any. -/
def findSub (needle : List Char) : List Char → Option Nat
  | [] => if needle = [] then some 0 else none
  | c :: rest =>
    if needle.isPrefixOf (c :: rest) then some 0
    else (findSub needle rest).map (· + 1)

/-- Whether the needle occurs as a contiguous substring of the haystack;
models std::string::find(...) != npos. -/
def containsSub (needle s : String) : Bool :=
  (findSub needle.toList s.toList).isSome

/-- Numeric value of a digit run. -/
def digitsVal (ds : List Char) : Nat :=
  ds.foldl (fun acc c => acc * 10 + (c.toNat - 48)) 0

/-- Leading integer of a character stream: an optional sign followed by at
least one digit; none when there is no digit.  Used to model numeric field
extraction from textual payloads. -/
def parseIntPrefix (cs : List Char) : Option Int :=
  match cs with
  | '-' :: rest =>
    let ds := rest.takeWhile Char.isDigit
    if ds = [] then none else some (-(digitsVal ds : Int))
  | '+' :: rest =>
    let ds := rest.takeWhile Char.isDigit
    if ds = [] then none else some (digitsVal ds : Int)
  | _ =>
    let ds := cs.takeWhile Char.isDigit
    if ds = [] then none else some (digitsVal ds : Int)

/-- Modelled from the external Poco JSON library as used by the sources:
extract the integer value of the top-level "viewId" field of a JSON
payload, or none when the payload has no parsable "viewId" field.  In the
C++ sources a missing field makes Poco throw; callers below turn the none
case into an Except error accordingly. -/
def parseViewId (payload : String) : Option Int :=
  let cs := payload.toList
  match findSub ("\"viewId\"".toList) cs with
  | none => none
  | some i =>
    let rest := (cs.drop (i + 8)).dropWhile (· = ' ')
    match rest with
    | ':' :: rest2 => parseIntPrefix (rest2.dropWhile (· = ' '))
    | _ => none

/-- String form of the viewId field, as compared by
SenderQueue::deduplicate via Poco Var::toString. -/
def parseViewIdString (payload : String) : Option String :=
  (parseViewId payload).map toString

/-- Errors thrown by std::stoi. -/
inductive StoiErr where
  | invalidArg
  | outOfRange
deriving DecidableEq, Repr

/-- Model of std::stoi on int: skip leading whitespace, read an optional
sign and a digit run (trailing garbage ignored); invalid_argument when no
digits, out_of_range when the value does not fit a 32-bit int. -/
def stoiModel (s : String) : Except StoiErr Int :=
  let cs := s.toList.dropWhile (fun c => c = ' ' ∨ c = '\t')
  let signed : Int × List Char :=
    match cs with
    | '-' :: rest => (-1, rest)
    | '+' :: rest => (1, rest)
    | rest => (1, rest)
  let ds := signed.2.takeWhile Char.isDigit
  if ds = [] then .error .invalidArg
  else
    let v : Int := signed.1 * (digitsVal ds : Int)
    if v > INT_MAX ∨ v < INT_MIN then .error .outOfRange else .ok v

/-- Modelled from the spec: TileDesc (TileDesc.hpp is not part of the
sources).  The tile identity is decoded from the name=value fields of the
first line of a tile message; parsing fails (TileDesc::parse throws) when a
required field is missing. -/
structure TileDesc where
  part : Int
  width : Int
  height : Int
  tilePosX : Int
  tilePosY : Int
  tileWidth : Int
  tileHeight : Int
deriving DecidableEq, Repr

/-- Split a character list at every occurrence of the separator. -/
def splitOnChar (sep : Char) : List Char → List (List Char)
  | [] => [[]]
  | c :: rest =>
    let r := splitOnChar sep rest
    if c = sep then [] :: r
    else
      match r with
      | [] => [[c]]
      | g :: gs => (c :: g) :: gs

/-- Value of the name=value token for the given name, when the token has
that shape with an integer value. -/
def pairValue (name : List Char) (tok : List Char) : Option Int :=
  match splitOnChar '=' tok with
  | [n, v] => if n = name then parseIntPrefix v else none
  | _ => none

/-- First integer bound to the given field name among whitespace-separated
name=value tokens of the line. -/
def fieldValue (name : String) (line : String) : Option Int :=
  ((splitOnChar ' ' line.toList).filterMap (pairValue name.toList)).head?

/-- Modelled from the spec: TileDesc::parse over the first line of a tile
message; requires all seven identity fields. -/
def TileDesc.parse (line : String) : Option TileDesc := do
  let part ← fieldValue "part" line
  let width ← fieldValue "width" line
  let height ← fieldValue "height" line
  let tilePosX ← fieldValue "tileposx" line
  let tilePosY ← fieldValue "tileposy" line
  let tileWidth ← fieldValue "tilewidth" line
  let tileHeight ← fieldValue "tileheight" line
  pure ⟨part, width, height, tilePosX, tilePosY, tileWidth, tileHeight⟩

/-! ### SenderQueue (src/wsd/SenderQueue.hpp)

The queue state is the deque contents plus the one-way stop flag; the
process-wide TerminationFlag is passed as an explicit boolean argument.
Library exceptions escaping an operation are modelled as an Except error;
in every such case the C++ code has not yet mutated the deque, so the
state is returned unchanged alongside the error. -/

structure SQState where
  queue : List Message
  stop : Bool
deriving DecidableEq, Repr

namespace SenderQueue

/-- Constructor state: empty deque, stop flag clear. -/
def init : SQState := ⟨[], false⟩

/-- stopping() from SenderQueue.hpp line 49: the private stop flag or the
process-wide TerminationFlag. -/
def stopping (term : Bool) (s : SQState) : Bool := s.stop || term

/-- stop() from SenderQueue.hpp lines 50-53. -/
def stop (s : SQState) : SQState := { s with stop := true }

/-- Predicate used by the find_if of the tile branch of deduplicate
(lines 102-107): the queued message is a tile message whose parsed
description equals the incoming one.  TileDesc::parse of a malformed
queued tile line throws, modelled as an error. -/
def tileMatch (d : TileDesc) (cur : Message) : Except Unit Bool :=
  if cur.firstToken = "tile:" then
    match TileDesc.parse cur.firstLine with
    | none => .error ()
    | some d2 => .ok (d = d2)
  else .ok false

/-- Predicate used by the find_if of the command-name branch of
deduplicate (lines 119-123). -/
def cmdMatch (command : String) (cur : Message) : Except Unit Bool :=
  .ok (cur.firstToken = command)

/-- Predicate used by the find_if of the invalidateviewcursor branch of
deduplicate (lines 139-152): same command and same viewId string; a queued
message of that command whose JSON lacks a viewId makes Poco throw. -/
def vcMatch (viewId : String) (cur : Message) : Except Unit Bool :=
  if cur.firstToken = "invalidateviewcursor:" then
    match parseViewIdString cur.jsonString with
    | none => .error ()
    | some v => .ok (viewId = v)
  else .ok false

/-- Model of std::find_if followed by erase of the found element: remove
the first queue element satisfying the predicate, leaving the queue
unchanged if none does; a predicate exception while scanning aborts the
whole operation before any erase. -/
def eraseFirstExc (p : Message → Except Unit Bool) :
    List Message → Except Unit (List Message)
  | [] => .ok []
  | m :: rest =>
    match p m with
    | .error e => .error e
    | .ok true => .ok rest
    | .ok false =>
      match eraseFirstExc p rest with
      | .error e => .error e
      | .ok r => .ok (m :: r)

/-- SenderQueue::deduplicate (lines 94-159): remove the queued message the
incoming one supersedes, if any, and report the queue to append to.  The
C++ function always returns true; its observable effect is the erase.  An
error is a Poco or TileDesc parse exception escaping deduplicate. -/
def deduplicate (item : Message) (q : List Message) :
    Except Unit (List Message) :=
  let command := item.firstToken
  if command = "tile:" then
    match TileDesc.parse item.firstLine with
    | none => .error ()
    | some d => eraseFirstExc (tileMatch d) q
  else if command = "statusindicatorsetvalue:" ∨ command = "invalidatecursor:" then
    eraseFirstExc (cmdMatch command) q
  else if command = "invalidateviewcursor:" then
    match parseViewIdString item.jsonString with
    | none => .error ()
    | some v => eraseFirstExc (vcMatch v) q
  else .ok q

/-- SenderQueue::enqueue (lines 55-63): when not stopping, deduplicate and
push the item at the back; the post-enqueue size is returned.  An Except
error is an exception escaping the call with the deque untouched. -/
def enqueue (term : Bool) (s : SQState) (item : Message) :
    SQState × Except Unit Nat :=
  if stopping term s then (s, .ok s.queue.length)
  else
    match deduplicate item s.queue with
    | .ok q2 => (⟨q2 ++ [item], s.stop⟩, .ok (q2.length + 1))
    | .error e => (s, .error e)

/-- SenderQueue::dequeue (lines 66-82): pop the front item when the queue
is non-empty and not stopping, else return nothing. -/
def dequeue (term : Bool) (s : SQState) : SQState × Option Message :=
  match s.queue with
  | [] => (s, none)
  | m :: rest =>
    if stopping term s then (s, none)
    else (⟨rest, s.stop⟩, some m)

/-- One queue operation; the TerminationFlag value in effect during the
operation rides along with it. -/
inductive SQOp where
  | enq (term : Bool) (item : Message)
  | deq (term : Bool)
  | stopOp
deriving Repr

/-- Apply one operation, discarding the reported value. -/
def applyOp (s : SQState) : SQOp → SQState
  | .enq term item => (enqueue term s item).1
  | .deq term => (dequeue term s).1
  | .stopOp => stop s

/-- Run a sequence of queue operations. -/
def runOps (s : SQState) : List SQOp → SQState
  | [] => s
  | op :: rest => runOps (applyOp s op) rest

end SenderQueue

/-! ### Dedup keys and the at-most-one invariant -/

/-- The dedup key of a message, following the branch structure of
SenderQueue::deduplicate: a parsed tile identity for tile messages, the
command name alone for status-indicator-value and cursor-invalidate
messages, and the command plus viewId for per-view cursor invalidations.
Messages of other commands, and messages whose key fields do not parse,
have no key. -/
inductive DedupKey where
  | tile (d : TileDesc)
  | cmd (c : String)
  | viewCursor (v : String)
deriving DecidableEq, Repr

/-- Dedup key of a message, if any. -/
def msgKey (m : Message) : Option DedupKey :=
  if m.firstToken = "tile:" then (TileDesc.parse m.firstLine).map .tile
  else if m.firstToken = "statusindicatorsetvalue:" ∨
          m.firstToken = "invalidatecursor:" then some (.cmd m.firstToken)
  else if m.firstToken = "invalidateviewcursor:" then
    (parseViewIdString m.jsonString).map .viewCursor
  else none

/-- Number of queued messages carrying the given dedup key. -/
def countKey (q : List Message) (k : DedupKey) : Nat :=
  q.countP (fun m => decide (msgKey m = some k))

/-- The queue invariant: at most one queued message per dedup key. -/
def dedupInv (q : List Message) : Prop :=
  ∀ k, countKey q k ≤ 1

namespace SenderQueue

theorem countKey_append (q₁ q₂ : List Message) (k : DedupKey) :
    countKey (q₁ ++ q₂) k = countKey q₁ k + countKey q₂ k := by
  simp [countKey, List.countP_append]

theorem countKey_eq_zero {q : List Message} {k : DedupKey}
    (h : ∀ m ∈ q, msgKey m ≠ some k) : countKey q k = 0 := by
  rw [countKey, List.countP_eq_zero]
  intro m hm
  simpa using h m hm

/-- Characterization of a successful eraseFirstExc run: either nothing
matched and the queue is unchanged, or exactly the first match was
removed. -/
theorem eraseFirstExc_ok {p : Message → Except Unit Bool} :
    ∀ {q q2 : List Message}, eraseFirstExc p q = .ok q2 →
    (q2 = q ∧ ∀ m ∈ q, p m = .ok false) ∨
    ∃ l₁ m l₂, q = l₁ ++ m :: l₂ ∧ q2 = l₁ ++ l₂ ∧ p m = .ok true ∧
      ∀ x ∈ l₁, p x = .ok false := by
  intro q
  induction q with
  | nil =>
    intro q2 h
    simp only [eraseFirstExc] at h
    injection h with h2
    subst h2
    exact Or.inl ⟨rfl, by simp⟩
  | cons m rest ih =>
    intro q2 h
    simp only [eraseFirstExc] at h
    cases hpm : p m with
    | error e => rw [hpm] at h; exact absurd h (by simp)
    | ok b =>
      rw [hpm] at h
      cases b with
      | true =>
        right
        refine ⟨[], m, rest, by simp, by simpa using h.symm, hpm, by simp⟩
      | false =>
        cases hrec : eraseFirstExc p rest with
        | error e => rw [hrec] at h; exact absurd h (by simp)
        | ok r =>
          rw [hrec] at h
          have hq2 : q2 = m :: r := by simpa using h.symm
          rcases ih hrec with ⟨hr, hall⟩ | ⟨l₁, x, l₂, hrest, hrq, hx, hl₁⟩
          · left
            subst hr
            refine ⟨hq2, ?_⟩
            intro y hy
            rcases List.mem_cons.mp hy with rfl | hy2
            · exact hpm
            · exact hall y hy2
          · right
            refine ⟨m :: l₁, x, l₂, by simp [hrest], by simp [hq2, hrq], hx, ?_⟩
            intro y hy
            rcases List.mem_cons.mp hy with rfl | hy2
            · exact hpm
            · exact hl₁ y hy2

theorem tileMatch_true {d : TileDesc} {m : Message}
    (h : tileMatch d m = .ok true) : msgKey m = some (.tile d) := by
  unfold tileMatch at h
  split at h
  · rename_i htok
    cases hp : TileDesc.parse m.firstLine with
    | none => rw [hp] at h; exact absurd h (by simp)
    | some d2 =>
      rw [hp] at h
      have : d = d2 := by simpa using h
      simp [msgKey, htok, hp, this]
  · exact absurd h (by simp)


theorem tileMatch_false {d : TileDesc} {m : Message}
    (h : tileMatch d m = .ok false) : msgKey m ≠ some (.tile d) := by
  unfold tileMatch at h
  intro hk
  simp only [msgKey] at hk
  by_cases htok : m.firstToken = "tile:"
  · rw [if_pos htok] at h hk
    cases hp : TileDesc.parse m.firstLine with
    | none => rw [hp] at h; exact absurd h (by simp)
    | some d2 =>
      rw [hp] at h
      have hne : ¬(d = d2) := by simpa using h
      rw [hp] at hk
      simp at hk
      exact hne hk.symm
  · rw [if_neg htok] at hk
    split at hk
    · simp at hk
    · split at hk
      · simp [Option.map_eq_some'] at hk
      · simp at hk

theorem cmdMatch_true {c : String} {m : Message}
    (hc : c = "statusindicatorsetvalue:" ∨ c = "invalidatecursor:")
    (h : cmdMatch c m = .ok true) : msgKey m = some (.cmd c) := by
  have htok : m.firstToken = c := by simpa [cmdMatch] using h
  have hct : ¬(c = "tile:") := by rcases hc with rfl | rfl <;> decide
  simp only [msgKey, htok]
  rw [if_neg hct, if_pos hc]

theorem cmdMatch_false {c : String} {m : Message}
    (h : cmdMatch c m = .ok false) : msgKey m ≠ some (.cmd c) := by
  have htok : ¬(m.firstToken = c) := by simpa [cmdMatch] using h
  intro hk
  simp only [msgKey] at hk
  split at hk
  · simp [Option.map_eq_some'] at hk
  · split at hk
    · simp at hk
      exact htok hk
    · split at hk
      · simp [Option.map_eq_some'] at hk
      · simp at hk

theorem vcMatch_true {v : String} {m : Message}
    (h : vcMatch v m = .ok true) : msgKey m = some (.viewCursor v) := by
  unfold vcMatch at h
  by_cases htok : m.firstToken = "invalidateviewcursor:"
  · rw [if_pos htok] at h
    cases hp : parseViewIdString m.jsonString with
    | none => rw [hp] at h; exact absurd h (by simp)
    | some v2 =>
      rw [hp] at h
      have hv : v = v2 := by simpa using h
      have h1 : ¬(m.firstToken = "tile:") := by rw [htok]; decide
      have h2 : ¬(m.firstToken = "statusindicatorsetvalue:" ∨
          m.firstToken = "invalidatecursor:") := by rw [htok]; decide
      simp only [msgKey]
      rw [if_neg h1, if_neg h2, if_pos htok, hp, hv]
      rfl
  · rw [if_neg htok] at h
    exact absurd h (by simp)

theorem vcMatch_false {v : String} {m : Message}
    (h : vcMatch v m = .ok false) : msgKey m ≠ some (.viewCursor v) := by
  unfold vcMatch at h
  intro hk
  simp only [msgKey] at hk
  split at hk
  · simp [Option.map_eq_some'] at hk
  · split at hk
    · simp at hk
    · split at hk
      · rename_i htok
        rw [if_pos htok] at h
        cases hp : parseViewIdString m.jsonString with
        | none => rw [hp] at h; exact absurd h (by simp)
        | some v2 =>
          rw [hp] at h
          have hne : ¬(v = v2) := by simpa using h
          rw [hp] at hk
          simp at hk
          exact hne hk.symm
      · simp at hk

theorem countKey_cons (m : Message) (q : List Message) (k : DedupKey) :
    countKey (m :: q) k =
      countKey q k + (if msgKey m = some k then 1 else 0) := by
  simp [countKey, List.countP_cons]

theorem countKey_singleton (m : Message) (k : DedupKey) :
    countKey [m] k = if msgKey m = some k then 1 else 0 := by
  simp [countKey, List.countP_cons]

theorem dedupInv_of_cons {m : Message} {q : List Message}
    (h : dedupInv (m :: q)) : dedupInv q := by
  intro k
  have hk := h k
  rw [countKey_cons] at hk
  omega

/-- After a successful dedup erase keyed at K, no queued message carries K
any more, and no key count grew. -/
theorem countKey_erase {p : Message → Except Unit Bool} {K : DedupKey}
    (hT : ∀ m, p m = .ok true → msgKey m = some K)
    (hF : ∀ m, p m = .ok false → msgKey m ≠ some K)
    {q q2 : List Message} (hinv : dedupInv q)
    (h : eraseFirstExc p q = .ok q2) :
    countKey q2 K = 0 ∧ ∀ k, countKey q2 k ≤ countKey q k := by
  rcases eraseFirstExc_ok h with ⟨rfl, hall⟩ | ⟨l₁, m, l₂, rfl, rfl, hm, hl₁⟩
  · refine ⟨countKey_eq_zero ?_, fun k => le_refl _⟩
    intro m hm
    exact hF m (hall m hm)
  · have hmK : msgKey m = some K := hT m hm
    have hq : countKey (l₁ ++ m :: l₂) K ≤ 1 := hinv K
    have h1 : countKey l₁ K = 0 := countKey_eq_zero (fun x hx => hF x (hl₁ x hx))
    rw [countKey_append, countKey_cons, h1] at hq
    rw [if_pos hmK] at hq
    constructor
    · rw [countKey_append, h1]
      omega
    · intro k
      rw [countKey_append, countKey_append, countKey_cons]
      omega

theorem dedupInv_append_keyed {q2 : List Message} {item : Message}
    {K : DedupKey} (hk : msgKey item = some K) (h0 : countKey q2 K = 0)
    (hle : ∀ k, countKey q2 k ≤ 1) : dedupInv (q2 ++ [item]) := by
  intro k
  rw [countKey_append, countKey_singleton]
  by_cases hkK : K = k
  · subst hkK
    rw [h0, if_pos hk]
  · have hne : msgKey item ≠ some k := by
      rw [hk]
      simpa using hkK
    rw [if_neg hne]
    have := hle k
    omega

theorem dedupInv_append_nokey {q : List Message} {item : Message}
    (hk : msgKey item = none) (hinv : dedupInv q) :
    dedupInv (q ++ [item]) := by
  intro k
  rw [countKey_append, countKey_singleton]
  rw [if_neg (by rw [hk]; simp)]
  have := hinv k
  omega

/-- A successful deduplicate followed by the push_back preserves the
at-most-one-per-key invariant. -/
theorem deduplicate_ok_inv {item : Message} {q q2 : List Message}
    (hinv : dedupInv q) (hd : deduplicate item q = .ok q2) :
    dedupInv (q2 ++ [item]) := by
  unfold deduplicate at hd
  by_cases h1 : item.firstToken = "tile:"
  · rw [if_pos h1] at hd
    cases hp : TileDesc.parse item.firstLine with
    | none => rw [hp] at hd; exact absurd hd (by simp)
    | some d =>
      rw [hp] at hd
      have hkey : msgKey item = some (.tile d) := by
        unfold msgKey
        rw [if_pos h1, hp]
        rfl
      have hc := countKey_erase (fun m hm => tileMatch_true hm)
        (fun m hm => tileMatch_false hm) hinv hd
      exact dedupInv_append_keyed hkey hc.1
        (fun k => le_trans (hc.2 k) (hinv k))
  · rw [if_neg h1] at hd
    by_cases h2 : item.firstToken = "statusindicatorsetvalue:" ∨
        item.firstToken = "invalidatecursor:"
    · rw [if_pos h2] at hd
      have hkey : msgKey item = some (.cmd item.firstToken) := by
        unfold msgKey
        rw [if_neg h1, if_pos h2]
      have hc := countKey_erase (fun m hm => cmdMatch_true h2 hm)
        (fun m hm => cmdMatch_false hm) hinv hd
      exact dedupInv_append_keyed hkey hc.1
        (fun k => le_trans (hc.2 k) (hinv k))
    · rw [if_neg h2] at hd
      by_cases h3 : item.firstToken = "invalidateviewcursor:"
      · rw [if_pos h3] at hd
        cases hpv : parseViewIdString item.jsonString with
        | none => rw [hpv] at hd; exact absurd hd (by simp)
        | some v =>
          rw [hpv] at hd
          have hkey : msgKey item = some (.viewCursor v) := by
            unfold msgKey
            rw [if_neg h1, if_neg h2, if_pos h3, hpv]
            rfl
          have hc := countKey_erase (fun m hm => vcMatch_true hm)
            (fun m hm => vcMatch_false hm) hinv hd
          exact dedupInv_append_keyed hkey hc.1
            (fun k => le_trans (hc.2 k) (hinv k))
      · rw [if_neg h3] at hd
        have hkey : msgKey item = none := by
          unfold msgKey
          rw [if_neg h1, if_neg h2, if_neg h3]
        injection hd with hq
        subst hq
        exact dedupInv_append_nokey hkey hinv

/-- Every single queue operation preserves the invariant. -/
theorem applyOp_dedupInv (s : SQState) (op : SQOp)
    (hinv : dedupInv s.queue) : dedupInv (applyOp s op).queue := by
  cases op with
  | enq term item =>
    show dedupInv (enqueue term s item).1.queue
    unfold enqueue
    split
    · exact hinv
    · cases hd : deduplicate item s.queue with
      | ok q2 => exact deduplicate_ok_inv hinv hd
      | error e => exact hinv
  | deq term =>
    show dedupInv (dequeue term s).1.queue
    obtain ⟨queue, stopb⟩ := s
    cases queue with
    | nil => exact hinv
    | cons m rest =>
      simp only [dequeue]
      split
      · exact hinv
      · exact dedupInv_of_cons hinv
  | stopOp => exact hinv

theorem runOps_dedupInv (ops : List SQOp) :
    ∀ s : SQState, dedupInv s.queue → dedupInv (runOps s ops).queue := by
  induction ops with
  | nil => intro s hinv; exact hinv
  | cons op rest ih =>
    intro s hinv
    exact ih (applyOp s op) (applyOp_dedupInv s op hinv)

end SenderQueue

/-- C2: after every sequence of enqueue, dequeue and stop operations run
on a freshly constructed OutboundSenderQueue, the queue holds at most one
queued message per dedup key: at most one tile message per parsed tile
identity, at most one statusindicatorsetvalue message and at most one
invalidatecursor message in total, and at most one invalidateviewcursor
message per viewId parsed from the payload. -/
theorem C2_at_most_one_message_per_dedup_key (ops : List SenderQueue.SQOp) :
    dedupInv (SenderQueue.runOps SenderQueue.init ops).queue :=
  SenderQueue.runOps_dedupInv ops SenderQueue.init (by intro k; simp [countKey, SenderQueue.init])


namespace SenderQueue

/-- Computation rule: when the first match sits after a run of
non-matching messages, eraseFirstExc removes exactly it. -/
theorem eraseFirstExc_found {p : Message → Except Unit Bool}
    {l₁ l₂ : List Message} {m : Message}
    (hl₁ : ∀ x ∈ l₁, p x = .ok false) (hm : p m = .ok true) :
    eraseFirstExc p (l₁ ++ m :: l₂) = .ok (l₁ ++ l₂) := by
  induction l₁ with
  | nil => simp [eraseFirstExc, hm]
  | cons a rest ih =>
    have ha : p a = .ok false := hl₁ a (by simp)
    have hrec := ih (fun x hx => hl₁ x (by simp [hx]))
    simp only [List.cons_append, eraseFirstExc, ha, List.append_eq, hrec]

end SenderQueue

/-- C3: on a non-stopping queue, enqueuing a tile message whose parsed
description equals that of a queued tile message (the first such match,
sitting after non-matching messages) erases the queued one and appends the
incoming message at the tail: the returned length equals the old length,
the survivor is the newer message at the tail position, and the other
queued messages keep their relative order. -/
theorem C3_tile_dedup_replaces_at_tail
    (item old : Message) (q₁ q₂ : List Message) (d : TileDesc)
    (htok : item.firstToken = "tile:")
    (hparse : TileDesc.parse item.firstLine = some d)
    (hold : SenderQueue.tileMatch d old = .ok true)
    (hq₁ : ∀ x ∈ q₁, SenderQueue.tileMatch d x = .ok false) :
    SenderQueue.enqueue false ⟨q₁ ++ old :: q₂, false⟩ item =
      (⟨(q₁ ++ q₂) ++ [item], false⟩,
        .ok (q₁ ++ old :: q₂).length) := by
  have hdedup : SenderQueue.deduplicate item (q₁ ++ old :: q₂) =
      .ok (q₁ ++ q₂) := by
    unfold SenderQueue.deduplicate
    rw [if_pos htok, hparse]
    exact SenderQueue.eraseFirstExc_found hq₁ hold
  unfold SenderQueue.enqueue
  have hstop : SenderQueue.stopping false ⟨q₁ ++ old :: q₂, false⟩ = false := rfl
  rw [hstop]
  simp only [Bool.false_eq_true, if_false]
  rw [hdedup]
  simp [List.length_append]
  omega

/-- Concrete tile message lines used by witnesses; the extra ver= token is
ignored by the tile identity parse and stands for content that differs
between two renders of the same tile. -/
def tileLineA : String :=
  "tile: part=0 width=256 height=256 tileposx=0 tileposy=0 tilewidth=3840 tileheight=3840 ver=1"

def tileLineB : String :=
  "tile: part=0 width=256 height=256 tileposx=0 tileposy=0 tilewidth=3840 tileheight=3840 ver=2"

def tileDescA : TileDesc := ⟨0, 256, 256, 0, 0, 3840, 3840⟩

def tileMsgOld : Message := ⟨"tile:", tileLineA, ""⟩

def tileMsgNew : Message := ⟨"tile:", tileLineB, ""⟩

def otherMsg : Message := ⟨"textselection:", "textselection: 1 2 3 4", ""⟩

/-- Witness for C3: with one unrelated message and one stale tile queued,
enqueuing the fresh render of the same tile keeps length 2, drops the
stale copy and puts the fresh one at the tail. -/
theorem C3_tile_dedup_replaces_at_tail_witness :
    SenderQueue.enqueue false ⟨[otherMsg, tileMsgOld], false⟩ tileMsgNew =
      (⟨[otherMsg, tileMsgNew], false⟩, .ok 2) := by
  have h := C3_tile_dedup_replaces_at_tail tileMsgNew tileMsgOld [otherMsg]
    [] tileDescA rfl rfl rfl ?_
  · simpa using h
  · intro x hx
    have hxo : x = otherMsg := by simpa using hx
    subst hxo
    rfl

/-- C4: once stop() has been observed on the queue state, enqueue leaves
the queue untouched and just reports the current length (so size never
increases), dequeue yields nothing even when items remain queued, and the
stop flag survives every further operation sequence. -/
theorem C4_stop_drops_enqueues_and_blocks_dequeue
    (s : SQState) (h : s.stop = true) :
    (∀ term item, SenderQueue.enqueue term s item = (s, .ok s.queue.length)) ∧
    (∀ term, SenderQueue.dequeue term s = (s, none)) ∧
    (∀ ops, (SenderQueue.runOps s ops).stop = true) := by
  refine ⟨?_, ?_, ?_⟩
  · intro term item
    unfold SenderQueue.enqueue
    rw [if_pos (by simp [SenderQueue.stopping, h])]
  · intro term
    unfold SenderQueue.dequeue
    split
    · rfl
    · split
      · rfl
      · rename_i hns
        exact absurd (by simp [SenderQueue.stopping, h]) hns
  · intro ops
    induction ops generalizing s with
    | nil => simpa [SenderQueue.runOps] using h
    | cons op rest ih =>
      rw [SenderQueue.runOps]
      apply ih
      cases op with
      | enq term item =>
        show (SenderQueue.enqueue term s item).1.stop = true
        unfold SenderQueue.enqueue
        split
        · exact h
        · cases hd : SenderQueue.deduplicate item s.queue with
          | ok q2 => exact h
          | error e => exact h
      | deq term =>
        show (SenderQueue.dequeue term s).1.stop = true
        unfold SenderQueue.dequeue
        split
        · exact h
        · split
          · exact h
          · exact h
      | stopOp => rfl

/-- Witness for C4: a stopped queue retaining one message drops a new
enqueue, reports length one, and dequeues nothing. -/
theorem C4_stop_drops_enqueues_and_blocks_dequeue_witness :
    SenderQueue.enqueue false ⟨[otherMsg], true⟩ tileMsgNew =
      (⟨[otherMsg], true⟩, .ok 1) ∧
    SenderQueue.dequeue false ⟨[otherMsg], true⟩ =
      (⟨[otherMsg], true⟩, none) := by
  have h := C4_stop_drops_enqueues_and_blocks_dequeue ⟨[otherMsg], true⟩ rfl
  exact ⟨h.1 false tileMsgNew, h.2.1 false⟩

/-- C9: with the process-wide TerminationFlag raised, every queue behaves
as stopping even when stop() was never called: enqueue drops its item and
reports the current length, and dequeue yields nothing regardless of the
queue contents. -/
theorem C9_termination_flag_forces_stopping (s : SQState) (item : Message) :
    SenderQueue.enqueue true s item = (s, .ok s.queue.length) ∧
    SenderQueue.dequeue true s = (s, none) := by
  constructor
  · unfold SenderQueue.enqueue
    rw [if_pos (by simp [SenderQueue.stopping])]
  · unfold SenderQueue.dequeue
    split
    · rfl
    · split
      · rfl
      · rename_i hns
        exact absurd (by simp [SenderQueue.stopping]) hns

/-! ### ChildSession (src/kit/ChildSession.cpp) -/

/-- Whitespace test used by token trimming. -/
def isWSpace (c : Char) : Bool :=
  c = ' ' || c = '\t' || c = '\n' || c = '\r'

/-- Trim leading and trailing whitespace from a character list. -/
def trimChars (cs : List Char) : List Char :=
  ((cs.dropWhile (isWSpace ·)).reverse.dropWhile (isWSpace ·)).reverse

/-- Model of Poco StringTokenizer over "," with TOK_IGNORE_EMPTY and
TOK_TRIM, as used on tile-invalidation payloads. -/
def tokenizeCSV (payload : String) : List String :=
  (((splitOnChar ',' payload.toList).map trimChars).filter
    (fun t => !t.isEmpty)).map List.asString

/-- One outbound invalidatetiles frame. -/
def tileFrame (part x y w h : Int) : String :=
  "invalidatetiles: part=" ++ toString part ++ " x=" ++ toString x ++
    " y=" ++ toString y ++ " width=" ++ toString w ++
    " height=" ++ toString h

/-- The five stoi conversions of the five-token tile-invalidation branch,
in source order (x, y, width, height, then part unless the document is
text); the first stoi failure aborts the rest, as thrown exceptions do. -/
def parseFiveTokens (docType : String) (t0 t1 t2 t3 t4 : String) :
    Except StoiErr (Int × Int × Int × Int × Int) := do
  let x ← stoiModel t0
  let y ← stoiModel t1
  let w ← stoiModel t2
  let h ← stoiModel t3
  let part ← if docType ≠ "text" then stoiModel t4 else .ok 0
  return (part, x, y, w, h)

/-- The LOK_CALLBACK_INVALIDATE_TILES case of ChildSession::loKitCallback
(lines 1519-1560): five comma-separated tokens are converted with stoi and
echoed as a structured frame, out_of_range conversions are clamped to the
maximal extent, a two-token EMPTY payload keeps the EMPTY form, and every
other payload is forwarded verbatim.  An Except error is the uncaught
std::invalid_argument a non-numeric five-token payload raises. -/
def invalidateTilesFrame (docType : String) (payload : String) :
    Except Unit String :=
  match tokenizeCSV payload with
  | [t0, t1, t2, t3, t4] =>
    match parseFiveTokens docType t0 t1 t2 t3 t4 with
    | .ok (part, x, y, w, h) => .ok (tileFrame part x y w h)
    | .error .outOfRange => .ok (tileFrame 0 0 0 INT_MAX INT_MAX)
    | .error .invalidArg => .error ()
  | [t0, t1] =>
    if t0 = "EMPTY" then
      .ok ("invalidatetiles: EMPTY, " ++ (if docType ≠ "text" then t1 else "0"))
    else .ok ("invalidatetiles: " ++ payload)
  | _ => .ok ("invalidatetiles: " ++ payload)

/-- One recorded callback event (type tag plus payload). -/
structure RecordedEvent where
  type : Nat
  payload : String
deriving DecidableEq, Repr

/-- Ordered-insert update of a key-sorted association list, the model of
std::map assignment (latest value wins, iteration in key order). -/
def mapInsert {κ α : Type} [DecidableEq κ] (lt : κ → κ → Bool) (k : κ)
    (v : α) : List (κ × α) → List (κ × α)
  | [] => [(k, v)]
  | (k2, v2) :: rest =>
    if k = k2 then (k, v) :: rest
    else if lt k k2 then (k, v) :: (k2, v2) :: rest
    else (k2, v2) :: mapInsert lt k v rest

/-- Lookup in an association list. -/
def mapLookup {κ α : Type} [DecidableEq κ] (k : κ) :
    List (κ × α) → Option α
  | [] => none
  | (k2, v) :: rest => if k = k2 then some v else mapLookup k rest

/-- Modelled from the spec: the StateRecorder class (its header is not
part of the sources; ChildSession.cpp is its only caller here).  Five
independent slots: the invalidate latch, a latest-wins map per event type,
a latest-wins map per (view, type), a latest-wins map per state name, and
an append-only arrival-order sequence. -/
structure StateRecorder where
  invalidate : Bool
  recordedEvents : List (Nat × RecordedEvent)
  recordedViewEvents : List (Int × List (Nat × RecordedEvent))
  recordedStates : List (String × String)
  recordedEventsVector : List RecordedEvent
deriving DecidableEq, Repr

namespace StateRecorder

/-- A fresh recorder: nothing buffered, latch clear. -/
def empty : StateRecorder := ⟨false, [], [], [], []⟩

def isInvalidate (r : StateRecorder) : Bool := r.invalidate

/-- Latch the everything-needs-redraw flag. -/
def recordInvalidate (r : StateRecorder) : StateRecorder :=
  { r with invalidate := true }

/-- Latest-wins per simple event type. -/
def recordEvent (r : StateRecorder) (type : Nat) (payload : String) :
    StateRecorder :=
  let m := mapInsert (fun a b => decide (a < b)) type
    (⟨type, payload⟩ : RecordedEvent) r.recordedEvents
  { r with recordedEvents := m }

/-- Latest-wins per (view, type). -/
def recordViewEvent (r : StateRecorder) (viewId : Int) (type : Nat)
    (payload : String) : StateRecorder :=
  let inner := (mapLookup viewId r.recordedViewEvents).getD []
  let inner2 := mapInsert (fun a b => decide (a < b)) type
    (⟨type, payload⟩ : RecordedEvent) inner
  let m := mapInsert (fun a b => decide (a < b)) viewId inner2
    r.recordedViewEvents
  { r with recordedViewEvents := m }

/-- Latest-wins per named state key. -/
def recordState (r : StateRecorder) (name payload : String) :
    StateRecorder :=
  let m := mapInsert (fun a b => decide (a < b)) name payload
    r.recordedStates
  { r with recordedStates := m }

/-- Append to the never-deduplicated arrival-order sequence. -/
def recordEventSequence (r : StateRecorder) (type : Nat)
    (payload : String) : StateRecorder :=
  { r with recordedEventsVector := r.recordedEventsVector ++ [⟨type, payload⟩] }

/-- Drop everything buffered. -/
def clear (_ : StateRecorder) : StateRecorder := empty

end StateRecorder

/-- Modelled from the spec: LOOLProtocol::parseNameValuePair (the protocol
helpers are not part of the sources): split the token at the first
occurrence of the delimiter; fails when the delimiter is absent. -/
def parseNameValuePair (token : String) (delim : Char) :
    Option (String × String) :=
  let cs := token.toList
  match findSub [delim] cs with
  | none => none
  | some i => some ((cs.take i).asString, (cs.drop (i + 1)).asString)

/-- Category B of the classifier (latest-per-type), exactly the type list
of the second branch of rememberEventsForInactiveUser. -/
def catB : List Nat :=
  [LOK_CALLBACK_INVALIDATE_VISIBLE_CURSOR, LOK_CALLBACK_CURSOR_VISIBLE,
   LOK_CALLBACK_TEXT_SELECTION, LOK_CALLBACK_TEXT_SELECTION_START,
   LOK_CALLBACK_TEXT_SELECTION_END, LOK_CALLBACK_CELL_FORMULA,
   LOK_CALLBACK_CELL_CURSOR, LOK_CALLBACK_GRAPHIC_SELECTION,
   LOK_CALLBACK_DOCUMENT_SIZE_CHANGED, LOK_CALLBACK_INVALIDATE_HEADER,
   LOK_CALLBACK_CELL_ADDRESS]

/-- Category C of the classifier (latest-per-view-per-type). -/
def catC : List Nat :=
  [LOK_CALLBACK_INVALIDATE_VIEW_CURSOR, LOK_CALLBACK_TEXT_VIEW_SELECTION,
   LOK_CALLBACK_CELL_VIEW_CURSOR, LOK_CALLBACK_GRAPHIC_VIEW_SELECTION,
   LOK_CALLBACK_VIEW_CURSOR_VISIBLE, LOK_CALLBACK_VIEW_LOCK]

/-- Category E of the classifier (ordered sequence). -/
def catE : List Nat :=
  [LOK_CALLBACK_REDLINE_TABLE_SIZE_CHANGED,
   LOK_CALLBACK_REDLINE_TABLE_ENTRY_MODIFIED, LOK_CALLBACK_COMMENT]

/-- ChildSession::rememberEventsForInactiveUser (lines 1409-1462).  The
category-C branch extracts the viewId with Poco getValue, which throws
when the payload has no parsable viewId: that case is the Except error.
A state-changed payload that does not parse as a name=value pair is
silently ignored; types outside all categories are ignored too. -/
def rememberEventsForInactiveUser (r : StateRecorder) (type : Nat)
    (payload : String) : Except Unit StateRecorder :=
  if type = LOK_CALLBACK_INVALIDATE_TILES then
    .ok r.recordInvalidate
  else if type ∈ catB then
    .ok (r.recordEvent type payload)
  else if type ∈ catC then
    match parseViewId payload with
    | some viewId => .ok (r.recordViewEvent viewId type payload)
    | none => .error ()
  else if type = LOK_CALLBACK_STATE_CHANGED then
    match parseNameValuePair payload '=' with
    | some nv => .ok (r.recordState nv.1 payload)
    | none => .ok r
  else if type ∈ catE then
    .ok (r.recordEventSequence type payload)
  else .ok r

/-- Result of one loKitCallback invocation: the recorder afterwards and
the text frames sent to the client. -/
structure CbResult where
  recorder : StateRecorder
  sent : List String
deriving DecidableEq, Repr

/-- The switch of ChildSession::loKitCallback (lines 1517-1711).  The
cases whose output depends on external collaborators (document part
enumeration for DOCUMENT_SIZE_CHANGED, JSON error decoding for ERROR,
clipboard state for CLIPBOARD_CHANGED) are delegated to the ext
parameter; all other cases are the literal sendTextFrame bodies.  The
unknown-type default only logs and sends nothing. -/
def lokDispatch (ext : Nat → String → List String) (docType : String)
    (type : Nat) (payload : String) : Except Unit (List String) :=
  if type = LOK_CALLBACK_INVALIDATE_TILES then
    (invalidateTilesFrame docType payload).map (fun f => [f])
  else if type = LOK_CALLBACK_INVALIDATE_VISIBLE_CURSOR then
    .ok ["invalidatecursor: " ++ payload]
  else if type = LOK_CALLBACK_TEXT_SELECTION then
    .ok ["textselection: " ++ payload]
  else if type = LOK_CALLBACK_TEXT_SELECTION_START then
    .ok ["textselectionstart: " ++ payload]
  else if type = LOK_CALLBACK_TEXT_SELECTION_END then
    .ok ["textselectionend: " ++ payload]
  else if type = LOK_CALLBACK_CURSOR_VISIBLE then
    .ok ["cursorvisible: " ++ payload]
  else if type = LOK_CALLBACK_GRAPHIC_SELECTION then
    .ok ["graphicselection: " ++ payload]
  else if type = LOK_CALLBACK_CELL_CURSOR then
    .ok ["cellcursor: " ++ payload]
  else if type = LOK_CALLBACK_CELL_FORMULA then
    .ok ["cellformula: " ++ payload]
  else if type = LOK_CALLBACK_MOUSE_POINTER then
    .ok ["mousepointer: " ++ payload]
  else if type = LOK_CALLBACK_HYPERLINK_CLICKED then
    .ok ["hyperlinkclicked: " ++ payload]
  else if type = LOK_CALLBACK_STATE_CHANGED then
    .ok ["statechanged: " ++ payload]
  else if type = LOK_CALLBACK_SEARCH_NOT_FOUND then
    .ok ["searchnotfound: " ++ payload]
  else if type = LOK_CALLBACK_SEARCH_RESULT_SELECTION then
    .ok ["searchresultselection: " ++ payload]
  else if type = LOK_CALLBACK_DOCUMENT_SIZE_CHANGED then
    .ok (ext type payload)
  else if type = LOK_CALLBACK_SET_PART then
    .ok ["setpart: " ++ payload]
  else if type = LOK_CALLBACK_UNO_COMMAND_RESULT then
    .ok ["unocommandresult: " ++ payload]
  else if type = LOK_CALLBACK_ERROR then
    .ok (ext type payload)
  else if type = LOK_CALLBACK_CONTEXT_MENU then
    .ok ["contextmenu: " ++ payload]
  else if type = LOK_CALLBACK_STATUS_INDICATOR_START then
    .ok ["statusindicatorstart:"]
  else if type = LOK_CALLBACK_STATUS_INDICATOR_SET_VALUE then
    .ok ["statusindicatorsetvalue: " ++ payload]
  else if type = LOK_CALLBACK_STATUS_INDICATOR_FINISH then
    .ok ["statusindicatorfinish:"]
  else if type = LOK_CALLBACK_INVALIDATE_VIEW_CURSOR then
    .ok ["invalidateviewcursor: " ++ payload]
  else if type = LOK_CALLBACK_TEXT_VIEW_SELECTION then
    .ok ["textviewselection: " ++ payload]
  else if type = LOK_CALLBACK_CELL_VIEW_CURSOR then
    .ok ["cellviewcursor: " ++ payload]
  else if type = LOK_CALLBACK_GRAPHIC_VIEW_SELECTION then
    .ok ["graphicviewselection: " ++ payload]
  else if type = LOK_CALLBACK_VIEW_CURSOR_VISIBLE then
    .ok ["viewcursorvisible: " ++ payload]
  else if type = LOK_CALLBACK_VIEW_LOCK then
    .ok ["viewlock: " ++ payload]
  else if type = LOK_CALLBACK_REDLINE_TABLE_SIZE_CHANGED then
    .ok ["redlinetablechanged: " ++ payload]
  else if type = LOK_CALLBACK_REDLINE_TABLE_ENTRY_MODIFIED then
    .ok ["redlinetablemodified: " ++ payload]
  else if type = LOK_CALLBACK_COMMENT then
    .ok ["comment: " ++ payload]
  else if type = LOK_CALLBACK_INVALIDATE_HEADER then
    .ok ["invalidateheader: " ++ payload]
  else if type = LOK_CALLBACK_CELL_ADDRESS then
    .ok ["celladdress: " ++ payload]
  else if type = LOK_CALLBACK_RULER_UPDATE then
    .ok ["rulerupdate: " ++ payload]
  else if type = LOK_CALLBACK_WINDOW then
    .ok ["window: " ++ payload]
  else if type = LOK_CALLBACK_VALIDITY_LIST_BUTTON then
    .ok ["validitylistbutton: " ++ payload]
  else if type = LOK_CALLBACK_CLIPBOARD_CHANGED then
    .ok (ext type payload)
  else if type = LOK_CALLBACK_SIGNATURE_STATUS then
    .ok ["signaturestatus: " ++ payload]
  else .ok []

/-- The inactive branch of ChildSession::loKitCallback (lines 1505-1515):
record the event, then skip unless it is a UNO command result whose
payload mentions .uno:Save, which falls through to the live switch. -/
def loKitCallbackInactive (ext : Nat → String → List String)
    (docType : String) (r : StateRecorder) (type : Nat)
    (payload : String) : Except Unit CbResult :=
  match rememberEventsForInactiveUser r type payload with
  | .error e => .error e
  | .ok r2 =>
    if type ≠ LOK_CALLBACK_UNO_COMMAND_RESULT ∨
        containsSub ".uno:Save" payload = false then
      .ok ⟨r2, []⟩
    else
      (lokDispatch ext docType type payload).map (fun out => ⟨r2, out⟩)

/-- ChildSession::loKitCallback (lines 1489-1712): closing or
disconnected sessions suppress everything; inactive sessions record and
skip except for save results; active sessions go straight to the
switch. -/
def loKitCallback (ext : Nat → String → List String) (docType : String)
    (closeFrame disconnected active : Bool) (r : StateRecorder)
    (type : Nat) (payload : String) : Except Unit CbResult :=
  if closeFrame then .ok ⟨r, []⟩
  else if disconnected then .ok ⟨r, []⟩
  else if !active then loKitCallbackInactive ext docType r type payload
  else (lokDispatch ext docType type payload).map (fun out => ⟨r, out⟩)

/-- Payload of the synthetic full invalidation emitted on reactivation
(ChildSession.cpp line 127). -/
def invalidateAllPayload (curPart : Int) : String :=
  "0, 0, " ++ toString INT_MAX ++ ", " ++ toString INT_MAX ++ ", " ++
    toString curPart

/-- The replay portion of the useractive branch of
ChildSession::_handleInput (lines 122-159), abstracted to the sequence of
loKitCallback invocations it makes, in source order: the synthetic full
invalidation when the latch is set, then the per-view events, then the
per-type events, then the named state changes, and last the arrival-order
sequence vector.  The curpart and setpart text frames sent beforehand for
non-text documents are not loKitCallback replays and are outside this
sequence. -/
def replayEvents (curPart : Int) (r : StateRecorder) :
    List (Nat × String) :=
  (if r.isInvalidate then
    [(LOK_CALLBACK_INVALIDATE_TILES, invalidateAllPayload curPart)]
  else []) ++
  (r.recordedViewEvents.flatMap
    (fun vp => vp.2.map (fun ep => (ep.2.type, ep.2.payload)))) ++
  r.recordedEvents.map (fun ep => (ep.2.type, ep.2.payload)) ++
  r.recordedStates.map (fun sp => (LOK_CALLBACK_STATE_CHANGED, sp.2)) ++
  r.recordedEventsVector.map (fun e => (e.type, e.payload))

/-- The useractive replay followed by the unconditional clear
(ChildSession.cpp lines 122-161). -/
def handleUserActive (curPart : Int) (r : StateRecorder) :
    List (Nat × String) × StateRecorder :=
  (replayEvents curPart r, r.clear)

/-! ### Claims about the replay protocol and callback filtering -/

/-- The example buffer of the C1 claim, built through the recording API:
invalidate latch set, one cursor event, two comments in order, one Bold
state change. -/
def exampleRecorder : StateRecorder :=
  ((((StateRecorder.empty.recordInvalidate).recordEvent
      LOK_CALLBACK_INVALIDATE_VISIBLE_CURSOR "cursor-payload").recordEventSequence
      LOK_CALLBACK_COMMENT "comment-one").recordEventSequence
      LOK_CALLBACK_COMMENT "comment-two").recordState ".uno:Bold" ".uno:Bold=true"

/-- C1 counterexample: for the example buffer the replay does not forward
the events in the claimed order global-invalidate, cursor, comment one,
comment two, Bold; the named state change comes before the comments. -/
theorem C1_counterexample_replay_order :
    replayEvents 0 exampleRecorder ≠
      [(LOK_CALLBACK_INVALIDATE_TILES, invalidateAllPayload 0),
       (LOK_CALLBACK_INVALIDATE_VISIBLE_CURSOR, "cursor-payload"),
       (LOK_CALLBACK_COMMENT, "comment-one"),
       (LOK_CALLBACK_COMMENT, "comment-two"),
       (LOK_CALLBACK_STATE_CHANGED, ".uno:Bold=true")] := by
  decide

/-- C1 amended: the replay forwards, in order, the synthetic global
invalidation, the per-view events (category C), the per-type events
(category B), the named state changes (category D), and last the sequence
entries (category E) in arrival order; for the example buffer the
forwarded order is global-invalidate, cursor, Bold, comment one,
comment two. -/
theorem C1_replay_order_states_before_sequence (curPart : Int)
    (pc p1 p2 pb stateName : String) :
    replayEvents curPart
      (((((StateRecorder.empty.recordInvalidate).recordEvent
          LOK_CALLBACK_INVALIDATE_VISIBLE_CURSOR pc).recordEventSequence
          LOK_CALLBACK_COMMENT p1).recordEventSequence
          LOK_CALLBACK_COMMENT p2).recordState stateName pb) =
      [(LOK_CALLBACK_INVALIDATE_TILES, invalidateAllPayload curPart),
       (LOK_CALLBACK_INVALIDATE_VISIBLE_CURSOR, pc),
       (LOK_CALLBACK_STATE_CHANGED, pb),
       (LOK_CALLBACK_COMMENT, p1),
       (LOK_CALLBACK_COMMENT, p2)] := rfl

/-- C8: the recorder is cleared unconditionally after replay, so a second
reactivation with no intervening inactive-period events replays
nothing. -/
theorem C8_replay_clears_and_second_replay_empty (curPart curPart2 : Int)
    (r : StateRecorder) :
    (handleUserActive curPart r).2 = StateRecorder.empty ∧
    (handleUserActive curPart2 (handleUserActive curPart r).2).1 = [] :=
  ⟨rfl, rfl⟩

/-- C5: while a session is inactive (and neither closing nor
disconnected), a callback whose type is in none of the classifier
categories is dropped without touching the recorder, except a UNO command
result mentioning .uno:Save, which is forwarded live through the outbound
path. -/
theorem C5_inactive_drops_noncategory_forwards_save
    (ext : Nat → String → List String) (docType : String)
    (r : StateRecorder) (t : Nat) (p : String)
    (hA : t ≠ LOK_CALLBACK_INVALIDATE_TILES) (hB : t ∉ catB)
    (hC : t ∉ catC) (hD : t ≠ LOK_CALLBACK_STATE_CHANGED)
    (hE : t ∉ catE) :
    (¬(t = LOK_CALLBACK_UNO_COMMAND_RESULT ∧
        containsSub ".uno:Save" p = true) →
      loKitCallback ext docType false false false r t p = .ok ⟨r, []⟩) ∧
    (t = LOK_CALLBACK_UNO_COMMAND_RESULT →
      containsSub ".uno:Save" p = true →
      loKitCallback ext docType false false false r t p =
        .ok ⟨r, ["unocommandresult: " ++ p]⟩) := by
  have hrem : rememberEventsForInactiveUser r t p = .ok r := by
    unfold rememberEventsForInactiveUser
    rw [if_neg hA, if_neg hB, if_neg hC, if_neg hD, if_neg hE]
  constructor
  · intro hns
    have hcond : ¬t = LOK_CALLBACK_UNO_COMMAND_RESULT ∨
        containsSub ".uno:Save" p = false := by
      by_cases ht : t = LOK_CALLBACK_UNO_COMMAND_RESULT
      · cases hcs : containsSub ".uno:Save" p
        · exact Or.inr rfl
        · exact absurd ⟨ht, hcs⟩ hns
      · exact Or.inl ht
    show loKitCallbackInactive ext docType r t p = .ok ⟨r, []⟩
    unfold loKitCallbackInactive
    rw [hrem]
    show (if ¬t = LOK_CALLBACK_UNO_COMMAND_RESULT ∨
          containsSub ".uno:Save" p = false then
        Except.ok (⟨r, []⟩ : CbResult)
      else
        (lokDispatch ext docType t p).map
          (fun out => (⟨r, out⟩ : CbResult))) = Except.ok ⟨r, []⟩
    rw [if_pos hcond]
  · intro ht hcs
    subst ht
    have hcond : ¬(¬LOK_CALLBACK_UNO_COMMAND_RESULT =
        LOK_CALLBACK_UNO_COMMAND_RESULT ∨
        containsSub ".uno:Save" p = false) := by
      intro hd
      rcases hd with hne | hf
      · exact hne rfl
      · rw [hcs] at hf
        exact Bool.noConfusion hf
    show loKitCallbackInactive ext docType r
      LOK_CALLBACK_UNO_COMMAND_RESULT p =
      Except.ok ⟨r, ["unocommandresult: " ++ p]⟩
    unfold loKitCallbackInactive
    rw [hrem]
    show (if ¬LOK_CALLBACK_UNO_COMMAND_RESULT =
          LOK_CALLBACK_UNO_COMMAND_RESULT ∨
          containsSub ".uno:Save" p = false then
        Except.ok (⟨r, []⟩ : CbResult)
      else
        (lokDispatch ext docType LOK_CALLBACK_UNO_COMMAND_RESULT p).map
          (fun out => (⟨r, out⟩ : CbResult))) =
      Except.ok ⟨r, ["unocommandresult: " ++ p]⟩
    rw [if_neg hcond]
    rfl

/-- A UNO command result payload mentioning .uno:Save. -/
def savePayload : String :=
  "\x7b \"commandName\": \".uno:Save\", \"success\": true \x7d"

/-- Witness for C5: on an inactive session a save result is forwarded
live untouched by the recorder, while a mouse-pointer callback (in no
category) is dropped. -/
theorem C5_inactive_drops_noncategory_forwards_save_witness :
    loKitCallback (fun _ _ => []) "text" false false false
      StateRecorder.empty LOK_CALLBACK_UNO_COMMAND_RESULT savePayload =
      .ok ⟨StateRecorder.empty, ["unocommandresult: " ++ savePayload]⟩ ∧
    loKitCallback (fun _ _ => []) "text" false false false
      StateRecorder.empty LOK_CALLBACK_MOUSE_POINTER "x=1" =
      .ok ⟨StateRecorder.empty, []⟩ := by
  constructor
  · exact (C5_inactive_drops_noncategory_forwards_save (fun _ _ => [])
      "text" StateRecorder.empty LOK_CALLBACK_UNO_COMMAND_RESULT
      savePayload (by decide) (by decide) (by decide) (by decide)
      (by decide)).2 rfl (by decide)
  · exact (C5_inactive_drops_noncategory_forwards_save (fun _ _ => [])
      "text" StateRecorder.empty LOK_CALLBACK_MOUSE_POINTER "x=1"
      (by decide) (by decide) (by decide) (by decide) (by decide)).1
      (by decide)

/-- C10: while inactive, a state-changed callback whose payload has no
name=value shape is silently dropped: the recorder is unchanged and
nothing is sent. -/
theorem C10_inactive_malformed_state_change_dropped
    (ext : Nat → String → List String) (docType : String)
    (r : StateRecorder) (p : String)
    (hparse : parseNameValuePair p '=' = none) :
    loKitCallback ext docType false false false r
      LOK_CALLBACK_STATE_CHANGED p = .ok ⟨r, []⟩ := by
  have hrem : rememberEventsForInactiveUser r
      LOK_CALLBACK_STATE_CHANGED p = .ok r := by
    unfold rememberEventsForInactiveUser
    rw [if_neg (by decide), if_neg (by decide), if_neg (by decide),
      if_pos rfl, hparse]
  show loKitCallbackInactive ext docType r
    LOK_CALLBACK_STATE_CHANGED p = .ok ⟨r, []⟩
  unfold loKitCallbackInactive
  rw [hrem]
  show (if ¬LOK_CALLBACK_STATE_CHANGED =
        LOK_CALLBACK_UNO_COMMAND_RESULT ∨
        containsSub ".uno:Save" p = false then
      Except.ok (⟨r, []⟩ : CbResult)
    else
      (lokDispatch ext docType LOK_CALLBACK_STATE_CHANGED p).map
        (fun out => (⟨r, out⟩ : CbResult))) = Except.ok ⟨r, []⟩
  rw [if_pos (Or.inl (by decide))]

/-- Witness for C10: a state-changed payload with no equals sign is
neither recorded nor forwarded. -/
theorem C10_inactive_malformed_state_change_dropped_witness :
    loKitCallback (fun _ _ => []) "text" false false false
      StateRecorder.empty LOK_CALLBACK_STATE_CHANGED "NoDelimiterHere" =
      .ok ⟨StateRecorder.empty, []⟩ :=
  C10_inactive_malformed_state_change_dropped (fun _ _ => []) "text"
    StateRecorder.empty "NoDelimiterHere" rfl

/-- A category-C payload with no parsable viewId field. -/
def noViewIdPayload : String := "\x7b \"rectangle\": \"EMPTY\" \x7d"

/-- C6 counterexample: a category-C event whose payload lacks a parsable
viewId is not stored under any catch-all bucket; the Poco lookup throws
out of rememberEventsForInactiveUser, and likewise an
invalidateviewcursor message with such a body makes the enqueue throw
without queueing anything. -/
theorem C6_counterexample_missing_viewid_throws :
    rememberEventsForInactiveUser StateRecorder.empty
      LOK_CALLBACK_INVALIDATE_VIEW_CURSOR noViewIdPayload =
      .error () ∧
    SenderQueue.enqueue false ⟨[], false⟩
      ⟨"invalidateviewcursor:",
       "invalidateviewcursor: " ++ noViewIdPayload, noViewIdPayload⟩ =
      (⟨[], false⟩, .error ()) := by
  exact ⟨rfl, rfl⟩

/-- C6 amended: category-E events never parse a viewId and are always
appended to the arrival-order sequence, so a missing viewId cannot affect
them; but a category-C event whose payload lacks a parsable viewId makes
the JSON field lookup throw: the exception escapes
rememberEventsForInactiveUser and nothing is recorded — there is no
catch-all bucket. -/
theorem C6_catE_always_recorded_catC_missing_viewid_throws
    (r : StateRecorder) (t : Nat) (p : String) :
    (t ∈ catE → rememberEventsForInactiveUser r t p =
      .ok (r.recordEventSequence t p)) ∧
    (t ∈ catC → parseViewId p = none →
      rememberEventsForInactiveUser r t p = .error ()) := by
  constructor
  · intro ht
    have hx : t = LOK_CALLBACK_REDLINE_TABLE_SIZE_CHANGED ∨
        t = LOK_CALLBACK_REDLINE_TABLE_ENTRY_MODIFIED ∨
        t = LOK_CALLBACK_COMMENT := by simpa [catE] using ht
    rcases hx with rfl | rfl | rfl <;> rfl
  · intro ht hp
    have hkey : ∀ t2 : Nat,
        (match parseViewId p with
          | some viewId => Except.ok (r.recordViewEvent viewId t2 p)
          | none => Except.error ()) =
          (Except.error () : Except Unit StateRecorder) := by
      intro t2
      rw [hp]
    have hx : t = LOK_CALLBACK_INVALIDATE_VIEW_CURSOR ∨
        t = LOK_CALLBACK_TEXT_VIEW_SELECTION ∨
        t = LOK_CALLBACK_CELL_VIEW_CURSOR ∨
        t = LOK_CALLBACK_GRAPHIC_VIEW_SELECTION ∨
        t = LOK_CALLBACK_VIEW_CURSOR_VISIBLE ∨
        t = LOK_CALLBACK_VIEW_LOCK := by simpa [catC] using ht
    rcases hx with rfl | rfl | rfl | rfl | rfl | rfl
    · exact hkey LOK_CALLBACK_INVALIDATE_VIEW_CURSOR
    · exact hkey LOK_CALLBACK_TEXT_VIEW_SELECTION
    · exact hkey LOK_CALLBACK_CELL_VIEW_CURSOR
    · exact hkey LOK_CALLBACK_GRAPHIC_VIEW_SELECTION
    · exact hkey LOK_CALLBACK_VIEW_CURSOR_VISIBLE
    · exact hkey LOK_CALLBACK_VIEW_LOCK

/-- Witness for the amended C6: a comment is appended to the sequence
unconditionally, while a view-cursor invalidation without viewId
throws. -/
theorem C6_catE_always_recorded_catC_missing_viewid_throws_witness :
    rememberEventsForInactiveUser StateRecorder.empty LOK_CALLBACK_COMMENT
      "comment-x" =
      .ok (StateRecorder.empty.recordEventSequence LOK_CALLBACK_COMMENT
        "comment-x") ∧
    rememberEventsForInactiveUser StateRecorder.empty
      LOK_CALLBACK_TEXT_VIEW_SELECTION noViewIdPayload = .error () := by
  constructor
  · exact (C6_catE_always_recorded_catC_missing_viewid_throws
      StateRecorder.empty LOK_CALLBACK_COMMENT "comment-x").1 (by decide)
  · exact (C6_catE_always_recorded_catC_missing_viewid_throws
      StateRecorder.empty LOK_CALLBACK_TEXT_VIEW_SELECTION
      noViewIdPayload).2 (by decide) rfl

/-- C7 counterexample: a short (three-token) tile-invalidation payload is
forwarded verbatim by the live callback path, not clamped to the maximal
extent. -/
theorem C7_counterexample_short_payload_forwarded_verbatim :
    loKitCallback (fun _ _ => []) "spreadsheet" false false true
      StateRecorder.empty LOK_CALLBACK_INVALIDATE_TILES "1, 2, 3" =
      .ok ⟨StateRecorder.empty, ["invalidatetiles: 1, 2, 3"]⟩ := by
  rfl

/-- C7 amended: the clamp to the maximal extent applies exactly to
five-token payloads whose integer conversion throws out_of_range; a
payload with any other token count (other than the EMPTY form) is
forwarded verbatim rather than rejected or dropped. -/
theorem C7_clamp_only_on_out_of_range (docType payload : String) :
    (∀ t0 t1 t2 t3 t4, tokenizeCSV payload = [t0, t1, t2, t3, t4] →
      parseFiveTokens docType t0 t1 t2 t3 t4 = .error .outOfRange →
      invalidateTilesFrame docType payload =
        .ok (tileFrame 0 0 0 INT_MAX INT_MAX)) ∧
    ((tokenizeCSV payload).length ≠ 5 → (tokenizeCSV payload).length ≠ 2 →
      invalidateTilesFrame docType payload =
        .ok ("invalidatetiles: " ++ payload)) := by
  constructor
  · intro t0 t1 t2 t3 t4 htoks herr
    unfold invalidateTilesFrame
    rw [htoks]
    show (match parseFiveTokens docType t0 t1 t2 t3 t4 with
      | .ok (part, x, y, w, h) => Except.ok (tileFrame part x y w h)
      | .error .outOfRange => Except.ok (tileFrame 0 0 0 INT_MAX INT_MAX)
      | .error .invalidArg => Except.error ()) =
      Except.ok (tileFrame 0 0 0 INT_MAX INT_MAX)
    rw [herr]
  · intro h5 h2
    unfold invalidateTilesFrame
    rcases hl : tokenizeCSV payload with
      _ | ⟨a, _ | ⟨b, _ | ⟨c, _ | ⟨d, _ | ⟨e, rest⟩⟩⟩⟩⟩
    · rfl
    · rfl
    · exact absurd (by simp [hl]) h2
    · rfl
    · rfl
    · cases rest with
      | nil => exact absurd (by simp [hl]) h5
      | cons f rest2 => rfl

/-- Witness for the amended C7: a five-token payload whose third field
overflows int is clamped; a three-token payload is forwarded verbatim. -/
theorem C7_clamp_only_on_out_of_range_witness :
    invalidateTilesFrame "spreadsheet" "0, 0, 2147483648, 0, 0" =
      .ok "invalidatetiles: part=0 x=0 y=0 width=2147483647 height=2147483647" ∧
    invalidateTilesFrame "spreadsheet" "7, 8, 9" =
      .ok "invalidatetiles: 7, 8, 9" := by
  constructor
  · exact (C7_clamp_only_on_out_of_range "spreadsheet"
      "0, 0, 2147483648, 0, 0").1 "0" "0" "2147483648" "0" "0" rfl rfl
  · exact (C7_clamp_only_on_out_of_range "spreadsheet" "7, 8, 9").2
      (by decide) (by decide)
